import Mathlib

/-!
Verification of the amore creator-recommendation core against its
specification.  The Python sources under src/pipeline are shallowly
embedded: numeric values are modelled as exact rationals (the Python code
computes with IEEE doubles; all constants involved are short decimals and
the claims under study are stable under that substitution), strings are
Lean strings, and Python dict lookups with defaults become Option fields
with getD.  Python square roots are eliminated by monotone squaring where
they only feed threshold comparisons, and are kept as Real.sqrt where a
normalised vector itself matters.
-/

namespace Amore

/-! ## Generic string helpers

Python substring tests (`kw in text`) and non-overlapping occurrence
counts (`text.count(kw)`) are implemented over the character list of a
string with structural recursion so that concrete instances reduce with
decide. -/

/-- Does the pattern occur as a leading block of the text. -/
def pfxMatch : List Char → List Char → Bool
  | [], _ => true
  | _ :: _, [] => false
  | p :: ps, t :: ts => p == t && pfxMatch ps ts

/-- Does the pattern occur anywhere in the text (Python infix test). -/
def hasSubAux (pat : List Char) : List Char → Bool
  | [] => pfxMatch pat []
  | c :: ts => pfxMatch pat (c :: ts) || hasSubAux pat ts

/-- Python `pat in text` for the nonempty patterns used by the pipeline. -/
def strContains (text pat : String) : Bool :=
  hasSubAux pat.data text.data

/-- Fuel-driven worker for countOcc; the fuel is an upper bound on the
number of characters the scan can consume, so the translation is total
and structurally recursive. -/
def countOccFuel : ℕ → List Char → List Char → ℕ
  | 0, _, _ => 0
  | _ + 1, _, [] => 0
  | fuel + 1, pat, c :: ts =>
      if pfxMatch pat (c :: ts) then 1 + countOccFuel fuel pat (List.drop (pat.length - 1) ts)
      else countOccFuel fuel pat ts

/-- Python `text.count(pat)`: greedy non-overlapping occurrence count. -/
def countOcc (text pat : String) : ℕ :=
  countOccFuel (text.data.length + 1) pat.data text.data

/-- ASCII lower-casing of one character, matching Python str.lower on the
ASCII/Korean texts the pipeline handles (Hangul has no case). -/
def charLower (c : Char) : Char :=
  if 65 ≤ c.toNat ∧ c.toNat ≤ 90 then Char.ofNat (c.toNat + 32) else c

/-- Python `s.lower()` restricted to ASCII case folding. -/
def strLower (s : String) : String :=
  ⟨s.data.map charLower⟩

/-- Is some character of the string a Hangul syllable, mirroring the check
for characters between u+AC00 and u+D7A3 in processors.py. -/
def hasKoreanChar (s : String) : Bool :=
  s.data.any fun c => 0xac00 ≤ c.toNat && c.toNat ≤ 0xd7a3

/-- Python space-join of a list of strings. -/
def joinSpace (l : List String) : String :=
  String.intercalate " " l

/-! ## Decimal rounding

Python round uses banker (half-to-even) rounding; the pipeline rounds
scores to fixed numbers of decimal places. -/

/-- Round to the nearest integer, ties to even (Python round semantics on
the exact value; the double-precision representation step is elided). -/
def roundHalfEven {α : Type} [LinearOrderedField α] [FloorRing α] (m : α) : ℤ :=
  if m - ⌊m⌋ < 1/2 then ⌊m⌋
  else if 1/2 < m - ⌊m⌋ then ⌊m⌋ + 1
  else if ⌊m⌋ % 2 = 0 then ⌊m⌋ else ⌊m⌋ + 1

/-- Python `round(x, d)`. -/
def pyRound {α : Type} [LinearOrderedField α] [FloorRing α] (d : ℕ) (x : α) : α :=
  (roundHalfEven (x * 10 ^ d) : α) / 10 ^ d

/-! ## Data model (spec section 3) -/

/-- One creator post: view, like and comment counters plus its caption. -/
structure Post where
  views : ℕ
  likes : ℕ
  comments : ℕ
  caption : String

/-- Visual descriptor attached to a creator; fields are optional because
the source reads them from a dict with per-call defaults. -/
structure ImageAnalysis where
  dominantStyle : Option String
  professionalismScore : Option ℚ
  trendRelevanceScore : Option ℚ
  vibe : Option String
  aestheticTags : List String

/-- One creator record.  A missing optional sub-document (Python empty or
absent image_analysis dict, which is falsy) is Option.none. -/
structure Influencer where
  username : String
  bio : String
  followers : ℕ
  recentPosts : List Post
  audienceCountries : List (String × ℚ)
  avgUploadIntervalDays : ℚ
  imageAnalysis : Option ImageAnalysis

/-! ## FISCalculator (src/pipeline/processors.py) -/

/-- View variability sub-score.  The source compares cv = sqrt(variance)/mean
with fixed thresholds; since mean is positive in that branch and squaring is
monotone on nonnegatives, the comparisons are translated as comparisons of
cv squared with the squared thresholds, which avoids an irrational sqrt. -/
def viewVariability (posts : List Post) : ℚ :=
  let views := (posts.map Post.views).filter (fun v => 0 < v)
  if views.length < 2 then 50
  else
    let n : ℚ := views.length
    let mean : ℚ := ((views.map (fun v => (v : ℚ))).sum) / n
    if mean = 0 then 0
    else
      let variance : ℚ := ((views.map (fun v => ((v : ℚ) - mean) ^ 2)).sum) / n
      let cvSq := variance / mean ^ 2
      if cvSq < (3/100) ^ 2 then 30
      else if cvSq < (5/100) ^ 2 then 55
      else if cvSq < (8/100) ^ 2 then 75
      else if cvSq < (50/100) ^ 2 then 95
      else 80

/-- Engagement asymmetry sub-score (mean like/view fraction). -/
def engagementAsymmetry (posts : List Post) : ℚ :=
  let rs := posts.filterMap fun p =>
    if 0 < p.views then some ((p.likes : ℚ) / (p.views : ℚ)) else none
  if rs = [] then 50
  else
    let avg := rs.sum / (rs.length : ℚ)
    if 2/100 ≤ avg ∧ avg ≤ 15/100 then 90
    else if (1/100 ≤ avg ∧ avg < 2/100) ∨ (15/100 < avg ∧ avg ≤ 25/100) then 70
    else if avg < 1/100 then 30
    else 40

/-- Comment ratio sub-score (mean comment/view fraction). -/
def commentEntropy (posts : List Post) : ℚ :=
  let rs := posts.filterMap fun p =>
    if 0 < p.views then some ((p.comments : ℚ) / (p.views : ℚ)) else none
  if rs = [] then 50
  else
    let avg := rs.sum / (rs.length : ℚ)
    let sc : ℚ :=
      if 1/1000 ≤ avg ∧ avg ≤ 2/100 then 90
      else if 5/10000 ≤ avg ∧ avg < 1/1000 then 70
      else if 2/100 < avg ∧ avg ≤ 5/100 then 75
      else if avg < 5/10000 then 40
      else 50
    max 0 sc

/-- Activity stability sub-score from the average upload interval. -/
def activityStability (interval : ℚ) : ℚ :=
  if interval = 0 then 50
  else if 1 ≤ interval ∧ interval ≤ 7 then 90
  else if 1/2 ≤ interval ∧ interval < 1 then 75
  else if 7 < interval ∧ interval ≤ 14 then 80
  else if interval < 1/2 then 40
  else 60

/-- Geographic consistency sub-score. -/
def geographicConsistency (inf : Influencer) : ℚ :=
  if inf.audienceCountries = [] then 80
  else
    let kr := (inf.audienceCountries.lookup "KR").getD 0
    let hasK := hasKoreanChar inf.bio || inf.recentPosts.any fun p => hasKoreanChar p.caption
    if hasK ∨ 1/2 ≤ kr then
      if 7/10 ≤ kr then 95
      else if 1/2 ≤ kr then 90
      else if 35/100 ≤ kr then 80
      else 65
    else
      if 3/10 ≤ kr then 75 else 75

/-- Result record of FISCalculator.calculate. -/
structure FisResult where
  fisScore : ℚ
  verdict : String
  viewVariability : ℚ
  engagementAsymmetry : ℚ
  commentEntropy : ℚ
  activityStability : ℚ
  geographicConsistency : ℚ

/-- FISCalculator.calculate: weighted combination of the five sub-scores,
then the geographic multiplier, the [0,100] clamp, the verdict thresholds
and the final one-decimal rounding of the reported score. -/
def fisCalculate (inf : Influencer) : FisResult :=
  let v := viewVariability inf.recentPosts
  let a := engagementAsymmetry inf.recentPosts
  let e := commentEntropy inf.recentPosts
  let acs := activityStability inf.avgUploadIntervalDays
  let d := geographicConsistency inf
  let base := (25/100 : ℚ) * v + (20/100) * e + (25/100) * a + (15/100) * acs
  let finalScore := max 0 (min 100 (base * (d / 100) + (15/100) * d))
  { fisScore := pyRound 1 finalScore
    verdict :=
      if 80 ≤ finalScore then "신뢰 계정"
      else if 60 ≤ finalScore then "주의 필요"
      else "허수 의심"
    viewVariability := v
    engagementAsymmetry := a
    commentEntropy := e
    activityStability := acs
    geographicConsistency := d }

/-! ## InfluencerClassifier (src/pipeline/processors.py) -/

/-- Expert keyword vocabulary. -/
def EXPERT_KEYWORDS : List String :=
  ["미용사", "원장", "살롱", "시술", "예약", "펌", "염색약", "레시피",
   "컬러리스트", "헤어아티스트", "디렉터", "전문가", "자격증", "교육",
   "클리닉", "두피케어", "발레아쥬", "테크닉", "조색", "미용실"]

/-- Trendsetter keyword vocabulary. -/
def TRENDSETTER_KEYWORDS : List String :=
  ["스타일링", "데일리룩", "OOTD", "추천", "꿀팁", "셀프", "홈케어",
   "트렌드", "패션", "일상", "크리에이터", "인플루언서", "협찬",
   "리뷰", "가성비", "꿀템", "솔직후기", "루틴", "유튜브"]

/-- Per-keyword weight for the expert vocabulary (EXPERT_WEIGHTS with
default 1.0). -/
def expertKwWeight (kw : String) : ℚ :=
  if kw = "원장" then 3
  else if kw = "미용사" then 5/2
  else if kw = "살롱" then 2
  else if kw = "시술" then 2
  else if kw = "디렉터" then 5/2
  else 1

/-- Per-keyword weight for the trendsetter vocabulary (TRENDSETTER_WEIGHTS
with default 1.0). -/
def trendKwWeight (kw : String) : ℚ :=
  if kw = "크리에이터" then 5/2
  else if kw = "인플루언서" then 5/2
  else if kw = "트렌드세터" then 3
  else if kw = "협찬" then 2
  else 1

/-- Weighted occurrence total of a keyword vocabulary over a text (a
keyword with zero occurrences contributes zero, exactly as in the source
loop that only accumulates positive counts). -/
def weightedKwTotal (text : String) (kws : List String) (w : String → ℚ) : ℚ :=
  (kws.map fun kw => (countOcc text kw : ℚ) * w kw).sum

/-- Biography plus all captions, the combined classification text. -/
def fullTextOf (inf : Influencer) : String :=
  inf.bio ++ " " ++ joinSpace (inf.recentPosts.map Post.caption)

/-- Core decision of InfluencerClassifier.classify as a function of the
two weighted keyword totals and the optional visual descriptor; returns
the label and its confidence. -/
def classifyFromScores (eScore tScore : ℚ) (img : Option ImageAnalysis) : String × ℚ :=
  if eScore + tScore = 0 then
    match img with
    | some ia =>
      let trendRel := ia.trendRelevanceScore.getD (1/2)
      let prof := ia.professionalismScore.getD (1/2)
      if trendRel > prof ∧ trendRel > 1/2 then ("Trendsetter", min (4/5) trendRel)
      else if prof > trendRel ∧ prof > 1/2 then ("Expert", min (4/5) prof)
      else ("Trendsetter", 1/2)
    | none => ("Trendsetter", 2/5)
  else
    let expertShare := eScore / (eScore + tScore)
    let trendShare := tScore / (eScore + tScore)
    if expertShare > trendShare then ("Expert", expertShare)
    else ("Trendsetter", trendShare)

/-- Role vector construction from the label and confidence. -/
def roleVectorOf (cls : String) (conf : ℚ) : ℚ × ℚ :=
  if cls = "Expert" then (conf, 1 - conf) else (1 - conf, conf)

/-- Result record of InfluencerClassifier.classify (the reported
confidence is rounded to three decimals, the role vector is built from
the unrounded confidence, as in the source). -/
structure ClassResult where
  classification : String
  confidence : ℚ
  roleVector : ℚ × ℚ

/-- InfluencerClassifier.classify. -/
def classify (inf : Influencer) : ClassResult :=
  let ft := fullTextOf inf
  let eScore := weightedKwTotal ft EXPERT_KEYWORDS expertKwWeight
  let tScore := weightedKwTotal ft TRENDSETTER_KEYWORDS trendKwWeight
  let lc := classifyFromScores eScore tScore inf.imageAnalysis
  { classification := lc.1
    confidence := pyRound 3 lc.2
    roleVector := roleVectorOf lc.1 lc.2 }

end Amore

namespace Amore

/-! ## Vectorizer (src/pipeline/vectorizer.py) -/

/-- Membership count: how many of the keywords occur in the text (the
Python generator sums 1 per keyword contained in the text). -/
def countMatched (kws : List String) (text : String) : ℕ :=
  (kws.filter fun kw => strContains text kw).length

/-- Keyword list attached to the Luxury entry of AESTHETIC_STYLES (the
only entry the vectorizer reads). -/
def LUXURY_AESTHETIC_KEYWORDS : List String :=
  ["프리미엄", "럭셔리", "고급", "명품", "VIP", "하이엔드"]

/-- PRODUCT_PROFESSIONAL_INDEX in source order (dict insertion order). -/
def PRODUCT_PROFESSIONAL_INDEX : List (String × ℚ) :=
  [("염색약", 9/10), ("산화제", 95/100), ("탈색제", 9/10), ("펌제", 95/100), ("클리닉", 9/10),
   ("두피케어", 8/10), ("손상모케어", 7/10), ("살롱전용", 1),
   ("샴푸", 3/10), ("린스", 25/100), ("컨디셔너", 25/100), ("트리트먼트", 4/10),
   ("헤어에센스", 4/10), ("헤어오일", 35/100), ("헤어스프레이", 3/10), ("왁스", 35/100),
   ("고데기", 4/10), ("드라이기", 35/100), ("셀프염색", 45/100), ("탈모샴푸", 55/100)]

/-- Brand/campaign context record.  Optional marketing approach mirrors a
possibly absent or empty (falsy) analysed approach string. -/
structure BrandContextProductLine where
  marketingApproach : Option String
  idealInfluencer : Option String
  expertiseKeywords : List String
  keyClaims : List String
  requiresCertification : Bool
  description : String

/-- Brand data record (spec section 3 brand/campaign context). -/
structure BrandData where
  brandName : String
  aestheticStyle : String
  slogan : String
  coreValues : List String
  targetKeywords : List String
  brandPhilosophy : String
  expertiseFocus : String
  productType : String
  campaignDescription : String
  expertiseLevel : String
  marketingApproach : Option String
  descriptionOverride : Bool
  productLines : List (String × BrandContextProductLine)

/-- Per-style base scores (BrandVectorizer get style scores table). -/
structure StyleScores where
  luxury : ℚ
  colorful : ℚ
  natural : ℚ
  trendy : ℚ

/-- Style score table with its fallback row. -/
def getStyleScores (style : String) : StyleScores :=
  if style = "Luxury" then ⟨9/10, 2/10, 1/10, 3/10⟩
  else if style = "Natural" then ⟨3/10, 1/10, 9/10, 2/10⟩
  else if style = "Trendy" then ⟨3/10, 5/10, 2/10, 9/10⟩
  else if style = "Classic" then ⟨6/10, 1/10, 3/10, 1/10⟩
  else if style = "Minimal" then ⟨5/10, 1/10, 4/10, 4/10⟩
  else if style = "Colorful" then ⟨2/10, 9/10, 1/10, 7/10⟩
  else ⟨3/10, 3/10, 3/10, 3/10⟩

/-- Combined style, slogan and core-value text of a brand. -/
def brandFullText (bd : BrandData) : String :=
  bd.aestheticStyle ++ " " ++ bd.slogan ++ " " ++ joinSpace bd.coreValues

/-- Brand luxury component. -/
def brandLuxuryScore (bd : BrandData) : ℚ :=
  if bd.aestheticStyle = "Luxury" then 9/10
  else min 1 ((countMatched LUXURY_AESTHETIC_KEYWORDS (brandFullText bd) : ℚ) * (15/100))

/-- Brand product expertise index: exact table lookup with default 0.4,
then refined by the first substring match over the table. -/
def brandProfessionalIndex (bd : BrandData) : ℚ :=
  let base := (PRODUCT_PROFESSIONAL_INDEX.lookup bd.productType).getD (4/10)
  match PRODUCT_PROFESSIONAL_INDEX.find? (fun p => strContains bd.productType p.1) with
  | some p => p.2
  | none => base

/-- Expert and trendsetter preference derived by thresholding the
professional index. -/
def brandRolePrefs (profIdx : ℚ) : ℚ × ℚ :=
  if 7/10 ≤ profIdx then (8/10, 2/10)
  else if profIdx ≤ 4/10 then (2/10, 8/10)
  else (1/2, 1/2)

/-- Campaign keyword lists of the brand vectorizer. -/
def TRENDY_CAMPAIGN_KEYWORDS : List String := ["트렌디", "힙", "MZ", "젊은", "Y2K", "스트릿"]

/-- Campaign keyword list for the natural dimension. -/
def NATURAL_CAMPAIGN_KEYWORDS : List String := ["자연", "내추럴", "순한", "친환경", "비건"]

/-- Campaign keyword list for the colorfulness dimension. -/
def COLORFUL_CAMPAIGN_KEYWORDS : List String := ["화려", "컬러풀", "비비드", "팝"]

/-- Brand colorfulness: campaign keyword hits, the 0.3 base, the cap at 1,
then the style-table floor. -/
def brandColorfulness (bd : BrandData) : ℚ :=
  max (min 1 ((countMatched COLORFUL_CAMPAIGN_KEYWORDS bd.campaignDescription : ℚ) * (15/100) + 3/10))
    (getStyleScores bd.aestheticStyle).colorful

/-- Brand naturalness component. -/
def brandNaturalScore (bd : BrandData) : ℚ :=
  max (min 1 ((countMatched NATURAL_CAMPAIGN_KEYWORDS bd.campaignDescription : ℚ) * (15/100) + 3/10))
    (getStyleScores bd.aestheticStyle).natural

/-- Brand modernity component. -/
def brandModernScore (bd : BrandData) : ℚ :=
  max (min 1 ((countMatched TRENDY_CAMPAIGN_KEYWORDS bd.campaignDescription : ℚ) * (15/100) + 3/10))
    (getStyleScores bd.aestheticStyle).trendy

/-- Brand profile vector before L2 normalization. -/
def rawBrandVector (bd : BrandData) : List ℚ :=
  let prefs := brandRolePrefs (brandProfessionalIndex bd)
  [brandLuxuryScore bd, brandProfessionalIndex bd, prefs.1, prefs.2,
   brandColorfulness bd, brandNaturalScore bd, brandModernScore bd]

/-- Sum of squared components. -/
def sumSqQ (v : List ℚ) : ℚ :=
  (v.map fun x => x ^ 2).sum

/-- Sum of squared components over the reals. -/
def sumSqR (v : List ℝ) : ℝ :=
  (v.map fun x => x ^ 2).sum

/-- L2 normalization over the reals, with the source zero-magnitude
branch returning the vector unchanged. -/
noncomputable def normalizeQR (v : List ℚ) : List ℝ :=
  if 0 < Real.sqrt ((sumSqQ v : ℚ) : ℝ) then
    v.map fun x : ℚ => (x : ℝ) / Real.sqrt ((sumSqQ v : ℚ) : ℝ)
  else
    v.map fun x : ℚ => (x : ℝ)

/-- BrandVectorizer.vectorize. -/
noncomputable def brandVectorizeR (bd : BrandData) : List ℝ :=
  normalizeQR (rawBrandVector bd)

/-- Influencer bio keyword lists for the luxury dimension. -/
def INF_LUXURY_KEYWORDS : List String := ["프리미엄", "럭셔리", "고급", "VIP", "청담", "압구정"]

/-- Influencer bio keyword list for the mass-market side. -/
def INF_MASS_KEYWORDS : List String := ["가성비", "저렴", "다이소", "올리브영"]

/-- Influencer caption keyword list for the colorfulness dimension. -/
def INF_COLORFUL_KEYWORDS : List String := ["화려", "컬러풀", "비비드", "핑크", "블루"]

/-- Influencer caption keyword list for the natural dimension. -/
def INF_NATURAL_KEYWORDS : List String := ["자연", "내추럴", "비건", "유기농", "친환경"]

/-- Influencer caption keyword list for the modernity dimension. -/
def INF_MODERN_KEYWORDS : List String := ["트렌드", "트렌디", "MZ", "힙", "Y2K"]

/-- All captions of a creator joined by spaces. -/
def infCaptions (inf : Influencer) : String :=
  joinSpace (inf.recentPosts.map Post.caption)

/-- Influencer luxury component. -/
def infLuxuryScore (inf : Influencer) : ℚ :=
  let lc := countMatched INF_LUXURY_KEYWORDS inf.bio
  let mc := countMatched INF_MASS_KEYWORDS inf.bio
  let base : ℚ :=
    if mc < lc then 7/10 + (lc : ℚ) * (1/10)
    else if lc < mc then 3/10 - (mc : ℚ) * (5/100)
    else 1/2
  let adjusted :=
    match inf.imageAnalysis with
    | some ia =>
      if ia.dominantStyle.getD "" = "luxury" then max base (85/100)
      else if ia.dominantStyle.getD "" = "minimal" then max base (6/10)
      else base
    | none => base
  max 0 (min 1 adjusted)

/-- Influencer professionalism component from the role vector and the
visual professionalism score. -/
def infProfessionalScore (inf : Influencer) (roleVec : ℚ × ℚ) : ℚ :=
  let p0 := roleVec.1 * (8/10) + 1/10
  match inf.imageAnalysis with
  | some ia => (p0 + ia.professionalismScore.getD (1/2)) / 2
  | none => p0

/-- Influencer colorfulness component. -/
def infColorfulness (inf : Influencer) : ℚ :=
  let c0 := (countMatched INF_COLORFUL_KEYWORDS (infCaptions inf) : ℚ) * (2/10)
  let c1 :=
    match inf.imageAnalysis with
    | some ia => if ia.dominantStyle.getD "" = "colorful" then max c0 (8/10) else c0
    | none => c0
  min 1 (c1 + 3/10)

/-- Influencer naturalness component. -/
def infNaturalScore (inf : Influencer) : ℚ :=
  let n0 := (countMatched INF_NATURAL_KEYWORDS (infCaptions inf) : ℚ) * (2/10)
  let n1 :=
    match inf.imageAnalysis with
    | some ia => if ia.dominantStyle.getD "" = "natural" then max n0 (8/10) else n0
    | none => n0
  min 1 (n1 + 3/10)

/-- Influencer modernity component (averaged with the visual trend
relevance when a descriptor is present, before the 0.3 base and cap). -/
def infModernScore (inf : Influencer) : ℚ :=
  let m0 := (countMatched INF_MODERN_KEYWORDS (infCaptions inf) : ℚ) * (2/10)
  match inf.imageAnalysis with
  | some ia =>
    let m1 := if ia.dominantStyle.getD "" = "trendy" then max m0 (8/10) else m0
    let m2 := (m1 + ia.trendRelevanceScore.getD (1/2)) / 2
    min 1 (m2 + 3/10)
  | none => min 1 (m0 + 3/10)

/-- Influencer profile vector before L2 normalization; a missing
classification result falls back to the (0.5, 0.5) role vector. -/
def rawInfluencerVector (inf : Influencer) (clsOpt : Option ClassResult) : List ℚ :=
  let roleVec := (clsOpt.map ClassResult.roleVector).getD (1/2, 1/2)
  [infLuxuryScore inf, infProfessionalScore inf roleVec, roleVec.1, roleVec.2,
   infColorfulness inf, infNaturalScore inf, infModernScore inf]

/-- InfluencerVectorizer.vectorize. -/
noncomputable def influencerVectorizeR (inf : Influencer) (clsOpt : Option ClassResult) : List ℝ :=
  normalizeQR (rawInfluencerVector inf clsOpt)

/-- Cosine similarity with the source zero-padding of unequal lengths and
zero-magnitude guard. -/
noncomputable def cosineSimilarityR (v1 v2 : List ℝ) : ℝ :=
  let n := max v1.length v2.length
  let a := v1 ++ List.replicate (n - v1.length) 0
  let b := v2 ++ List.replicate (n - v2.length) 0
  let dot := (List.zipWith (fun x y => x * y) a b).sum
  let m1 := Real.sqrt (sumSqR a)
  let m2 := Real.sqrt (sumSqR b)
  if m1 = 0 ∨ m2 = 0 then 0 else dot / (m1 * m2)

end Amore

namespace Amore

/-! ## InfluencerMatcher (src/pipeline/matcher.py)

The Python builtin hash, which the source applies to strings for
tie-breaking noise, is salted per interpreter run; it is modelled as an
explicit integer-valued hash parameter threaded through the scoring. -/

/-- Resolved product information returned by the product-info step. -/
structure ProductInfo where
  productType : String
  marketingApproach : String
  idealInfluencer : String
  expertiseKeywords : List String
  keyClaims : List String
  requiresCertification : Bool
  description : String

/-- Marketing approach resolved for one product line: the description
override takes the analysed approach, else the analysed approach when
present, else the line approach, else consumer.  An absent or empty
(falsy) analysed approach is Option.none. -/
def resolvedLineApproach (bd : BrandData) (li : BrandContextProductLine) : String :=
  if bd.descriptionOverride ∧ bd.marketingApproach.isSome then bd.marketingApproach.getD "consumer"
  else bd.marketingApproach.getD (li.marketingApproach.getD "consumer")

/-- Fallback product info when no product line matches: analysed approach
first, else the brand expertise level decides. -/
def productInfoDefault (bd : BrandData) : ProductInfo :=
  let pt := if bd.productType = "" then "일반" else bd.productType
  match bd.marketingApproach with
  | some ma =>
    let ideal :=
      if ma = "professional" then "Expert"
      else if ma = "consumer" then "Trendsetter"
      else "Both"
    ⟨pt, ma, ideal, [], [], false, ""⟩
  | none =>
    if bd.expertiseLevel = "high" then ⟨pt, "expert_oriented", "Expert", [], [], false, ""⟩
    else if bd.expertiseLevel = "medium_high" then ⟨pt, "expert_oriented", "Both", [], [], false, ""⟩
    else ⟨pt, "consumer", "Trendsetter", [], [], false, ""⟩

/-- Product info from one named line entry. -/
def productInfoOfLine (bd : BrandData) (name : String) (li : BrandContextProductLine) : ProductInfo :=
  ⟨name, resolvedLineApproach bd li, li.idealInfluencer.getD "Both",
   li.expertiseKeywords, li.keyClaims, li.requiresCertification, li.description⟩

/-- Product information resolution: explicit product line first, then the
first line whose name contains the product type, then the fallback. -/
def getProductInfo (bd : BrandData) (productLine : Option String) : ProductInfo :=
  let byType :=
    match bd.productLines.find? (fun p => bd.productType ≠ "" ∧ strContains p.1 bd.productType) with
    | some p => productInfoOfLine bd p.1 p.2
    | none => productInfoDefault bd
  match productLine with
  | some pl =>
    if pl ≠ "" then
      match bd.productLines.lookup pl with
      | some li => productInfoOfLine bd pl li
      | none => byType
    else byType
  | none => byType

/-- Preferred creator type from the marketing approach. -/
def getPreferredTypeV2 (ma ideal : String) : String :=
  if ma = "professional" then "Expert"
  else if ma = "consumer" then "Trendsetter"
  else if ideal ≠ "Both" then ideal else "Expert"

/-- Generic expert keyword list of the expertise evaluation. -/
def EXPERTISE_EXPERT_KEYWORDS : List String :=
  ["원장", "디렉터", "미용사", "컬러리스트", "자격증", "전문", "년차", "경력"]

/-- Education and tutorial keyword list of the expertise evaluation. -/
def EXPERTISE_EDU_KEYWORDS : List String :=
  ["레슨", "교육", "시술", "과정", "테크닉", "노하우", "비법"]

/-- Expertise alignment score of one creator (evaluate expertise). -/
def evaluateExpertise (inf : Influencer) (expertiseKeywords : List String) : ℚ :=
  let bio := strLower inf.bio
  let captions := strLower (infCaptions inf)
  let fullText := bio ++ " " ++ captions
  let s1 : ℚ :=
    if expertiseKeywords ≠ [] then
      min (2/10) ((countMatched (expertiseKeywords.map strLower) fullText : ℚ) * (5/100))
    else 0
  let s2 : ℚ := min (15/100) ((countMatched EXPERTISE_EXPERT_KEYWORDS fullText : ℚ) * (3/100))
  let s3 : ℚ := min (1/10) ((countMatched EXPERTISE_EDU_KEYWORDS fullText : ℚ) * (3/100))
  let s4 : ℚ :=
    if strContains bio "자격증" || strContains bio "라이센스" || strContains bio "면허" then 5/100 else 0
  min 1 (1/2 + s1 + s2 + s3 + s4)

/-- Visual professionalism score with the 0.5 default of the call sites. -/
def profScoreOf (inf : Influencer) : ℚ :=
  match inf.imageAnalysis with
  | some ia => ia.professionalismScore.getD (1/2)
  | none => 1/2

/-- Visual trend relevance score with the 0.5 default of the call sites. -/
def trendScoreOf (inf : Influencer) : ℚ :=
  match inf.imageAnalysis with
  | some ia => ia.trendRelevanceScore.getD (1/2)
  | none => 1/2

/-- Dominant visual style with the empty-string default of the call sites. -/
def domStyleOfInf (inf : Influencer) : String :=
  match inf.imageAnalysis with
  | some ia => ia.dominantStyle.getD ""
  | none => ""

/-- Visual vibe text with the empty-string default of the call sites. -/
def vibeOf (inf : Influencer) : String :=
  match inf.imageAnalysis with
  | some ia => ia.vibe.getD ""
  | none => ""

/-- Aesthetic tags of the visual descriptor. -/
def aestheticTagsOf (inf : Influencer) : List String :=
  match inf.imageAnalysis with
  | some ia => ia.aestheticTags
  | none => []

/-- Lifestyle keyword list of the consumer fit branch. -/
def LIFESTYLE_BIO_KEYWORDS : List String := ["데일리", "일상", "루틴", "꿀팁", "추천", "리뷰"]

/-- Product and creator fit score (calculate fit score, the differential
scoring version). -/
def calculateFitScore (cls ma : String) (inf : Influencer) (expertiseScore : ℚ) : ℚ :=
  if ma = "professional" then
    if cls = "Expert" then
      let base : ℚ := 9/10
        + (if strContains inf.bio "원장" || strContains inf.bio "디렉터" then 5/100 else 0)
        + (if strContains inf.bio "시술" || strContains inf.bio "살롱" then 5/100 else 0)
      min 1 base
    else 15/100
  else if ma = "expert_oriented" then
    if cls = "Expert" then
      let base : ℚ := 85/100 + expertiseScore * (1/10)
        + (if strContains inf.bio "전문" || strContains inf.bio "박사" || strContains inf.bio "연구" then 5/100 else 0)
      min 1 base
    else
      25/100 + (profScoreOf inf - 3/10) * (2/10)
  else
    if cls = "Trendsetter" then
      let base : ℚ := 85/100 + (trendScoreOf inf - 1/2) * (15/100)
        + (if LIFESTYLE_BIO_KEYWORDS.any (fun kw => strContains inf.bio kw) then 7/100 else 0)
      min 1 base
    else
      1/2 + (profScoreOf inf - 3/10) * (2/10)

/-- Product keyword table of the unique-score bio relevance step. -/
def uniqueProductKeywordTable : List (String × List String) :=
  [("염색", ["염색", "컬러", "컬러리스트", "헤어컬러", "블리치"]),
   ("펌", ["펌", "웨이브", "컬", "볼륨", "스타일링"]),
   ("샴푸", ["케어", "샴푸", "세정", "클렌징", "모발"]),
   ("두피", ["두피", "탈모", "스캘프", "모근", "두피케어"]),
   ("트리트먼트", ["트리트먼트", "손상모", "케어", "영양", "복구"]),
   ("살롱", ["살롱", "원장", "미용실", "헤어샵", "헤어디자이너"]),
   ("에센스", ["에센스", "세럼", "오일", "윤기", "광채"]),
   ("스타일링", ["스타일링", "왁스", "스프레이", "무스", "젤"])]

/-- Style match table of the unique-score step. -/
def uniqueStyleMatch (brandStyle : String) : Option (List String) :=
  if brandStyle = "Luxury" then some ["luxury", "minimal", "elegant", "premium"]
  else if brandStyle = "Natural" then some ["natural", "organic", "clean", "minimal"]
  else if brandStyle = "Trendy" then some ["trendy", "modern", "hip", "edgy"]
  else if brandStyle = "Colorful" then some ["colorful", "vibrant", "pop", "bold"]
  else if brandStyle = "Classic" then some ["classic", "elegant", "traditional"]
  else if brandStyle = "Minimal" then some ["minimal", "clean", "simple"]
  else none

/-- Expert keyword list of the unique-score specialization step. -/
def UNIQUE_EXPERT_KEYWORDS : List String :=
  ["원장", "디렉터", "년차", "전문", "자격증", "미용사", "컬러리스트"]

/-- Approach bonus keyword list for professional campaigns. -/
def APPROACH_PROFESSIONAL_KEYWORDS : List String := ["시술", "레슨", "교육", "클래스", "세미나"]

/-- Approach bonus keyword list for expert-oriented campaigns. -/
def APPROACH_EXPERT_ORIENTED_KEYWORDS : List String := ["성분", "효과", "효능", "과학", "연구"]

/-- Approach bonus keyword list for consumer campaigns. -/
def APPROACH_CONSUMER_KEYWORDS : List String := ["데일리", "일상", "GRWM", "루틴", "꿀팁", "추천"]

/-- Expert vibe words of the unique-score vibe step. -/
def VIBE_EXPERT_WORDS : List String := ["전문", "professional", "expert"]

/-- Trendsetter vibe words of the unique-score vibe step. -/
def VIBE_TREND_WORDS : List String := ["트렌디", "trendy", "감성", "스타일"]

/-- Brand specific identity keyword lists (get brand specific keywords). -/
def brandSpecificKeywords (brandName : String) : List String :=
  if brandName = "려" then
    ["한방", "인삼", "한약", "생약", "전통", "동양의학", "자양", "청아", "흑운",
     "모근", "뿌리", "근본", "아시아", "유산", "진생", "영양"]
  else if brandName = "미쟝센" then
    ["트렌드", "MZ", "Z세대", "힙", "스타일", "패션", "개성", "표현", "대담",
     "셀프", "GRWM", "룩", "헬로버블", "컬러", "염색", "스타일링"]
  else if brandName = "라보에이치" then
    ["피부과", "더마", "더마톨로지", "피부과학", "임상", "과학적",
     "피부장벽", "스킨케어", "민감성", "성분", "피지", "스캘프"]
  else if brandName = "아윤채" then
    ["디자이너", "본질", "살롱케어", "테이크홈", "홈케어",
     "프로", "프로페셔널", "미용사", "원장", "시술", "클리닉"]
  else if brandName = "아모스 프로페셔널" then
    ["테크닉", "노하우", "신뢰", "검증", "커리큘럼", "그린티",
     "살롱", "프로", "전문가", "스타일리스트", "디자이너"]
  else if brandName = "롱테이크" then
    ["향기", "퍼퓸", "향", "우디", "숲", "자연향", "디퓨저",
     "감성", "무드", "힐링", "라이프스타일", "공간", "편안", "휴식"]
  else []

/-- Competitor brand table of the exclusivity adjustment. -/
def competitorBrands (brandName : String) : List String :=
  if brandName = "려" then ["라보에이치"]
  else if brandName = "라보에이치" then ["려"]
  else if brandName = "미쟝센" then ["롱테이크"]
  else if brandName = "롱테이크" then ["미쟝센"]
  else if brandName = "아윤채" then ["아모스 프로페셔널"]
  else if brandName = "아모스 프로페셔널" then ["아윤채"]
  else []

/-- Brand exclusivity adjustment: keyword affinity against the designated
competitor, with a hash-seeded micro variation when no keyword signal
separates the brands. -/
def brandExclusivityScore (hashF : String → ℤ) (inf : Influencer) (brandName : String) : ℚ :=
  let bio := strLower inf.bio
  let captions := strLower (infCaptions inf)
  let vibe := strLower (vibeOf inf)
  let infText := bio ++ " " ++ captions ++ " " ++ vibe
  let currentMatch : ℚ := countMatched (((brandSpecificKeywords brandName).take 8).map strLower) infText
  let comps := competitorBrands brandName
  let compScores := comps.map fun c =>
    ((countMatched (((brandSpecificKeywords c).take 8).map strLower) infText : ℚ))
  let seedScore : ℚ :=
    let brandSeed : ℚ := ((hashF brandName % 100 : ℤ) : ℚ) / 1000
    let infSeed : ℚ := ((hashF inf.username % 100 : ℤ) : ℚ) / 1000
    (brandSeed + infSeed) * (5/100) - 25/1000
  if comps ≠ [] ∧ compScores ≠ [] then
    let avgComp := compScores.sum / (compScores.length : ℚ)
    let diff := currentMatch - avgComp
    if 0 < diff then min (15/100) (diff * (4/100))
    else if diff < 0 then max (-(1/10)) (diff * (3/100))
    else seedScore
  else seedScore

/-- Brand identity match of one creator (calculate brand identity match).
The falsy-brand guard of the source is vacuous for a total record. -/
def brandIdentityMatch (hashF : String → ℤ) (inf : Influencer) (bd : BrandData) : ℚ :=
  let bio := strLower inf.bio
  let captions := strLower (infCaptions inf)
  let vibe := strLower (vibeOf inf)
  let tags := (aestheticTagsOf inf).map strLower
  let infText := bio ++ " " ++ captions ++ " " ++ vibe ++ " " ++ joinSpace tags
  let bkws := brandSpecificKeywords bd.brandName
  let m1 : ℚ :=
    if bkws ≠ [] then min (8/100) ((countMatched (bkws.map strLower) infText : ℚ) * (2/100)) else 0
  let m2 : ℚ := min (4/100) ((countMatched (bd.coreValues.map strLower) infText : ℚ) * (1/100))
  let m3 : ℚ :=
    if bd.expertiseFocus ≠ "" then
      let focusWords := ((strLower bd.expertiseFocus).splitOn " ").filter (fun w => w ≠ "")
      min (3/100) (((focusWords.filter fun w => 2 < w.length ∧ strContains infText w).length : ℚ) * (1/100))
    else 0
  m1 + m2 + m3 + brandExclusivityScore hashF inf bd.brandName

/-- Deterministic-within-a-run personal variation of the unique score,
derived from the hash of the handle and the follower count. -/
def personalVariation (hashF : String → ℤ) (username : String) (followers : ℕ) : ℚ :=
  let personalSeed : ℚ := ((hashF username % 1000 : ℤ) : ℚ) / 10000
  let followerFactor : ℚ := ((followers % 10000 : ℕ) : ℚ) / 100000
  (personalSeed + followerFactor - 1/10) * (1/2)

/-- Unique characteristic score v2.  The falsy-influencer guard of the
source is vacuous for a total record. -/
def uniqueScoreV2 (hashF : String → ℤ) (inf : Influencer) (bd : BrandData) (cls ma : String) : ℚ :=
  let bioMatch : ℚ :=
    match uniqueProductKeywordTable.find? (fun p => strContains (strLower bd.productType) p.1) with
    | some p => min (25/100) ((countMatched p.2 (strLower inf.bio) : ℚ) * (8/100))
    | none => 0
  let styleMatch : ℚ :=
    match uniqueStyleMatch bd.aestheticStyle with
    | some styles =>
      if styles.contains (domStyleOfInf inf) then 2/10
      else if domStyleOfInf inf ≠ "" then 5/100
      else 0
    | none => 0
  let clsBonus : ℚ :=
    if cls = "Trendsetter" then
      (trendScoreOf inf - 4/10) * (3/10)
        + (if 100000 ≤ inf.followers then 5/100
           else if 50000 ≤ inf.followers then 3/100
           else if 10000 ≤ inf.followers then 1/100
           else 0)
    else if cls = "Expert" then
      (profScoreOf inf - 4/10) * (3/10)
        + min (1/10) ((countMatched UNIQUE_EXPERT_KEYWORDS inf.bio : ℚ) * (3/100))
    else 0
  let engagement : ℚ :=
    match inf.recentPosts with
    | [] => 0
    | _ :: _ =>
      let total : ℚ := (inf.recentPosts.map fun p => ((p.likes + p.comments : ℕ) : ℚ)).sum
      let avg := total / (inf.recentPosts.length : ℚ)
      if 0 < inf.followers then
        let rate := avg / (inf.followers : ℚ)
        if 8/100 < rate then 15/100
        else if 5/100 < rate then 1/10
        else if 3/100 < rate then 5/100
        else if 1/100 < rate then 2/100
        else 0
      else 0
  let approachBonus : ℚ :=
    if ma = "professional" then
      if APPROACH_PROFESSIONAL_KEYWORDS.any (fun kw => strContains inf.bio kw) then 1/10 else 0
    else if ma = "expert_oriented" then
      if APPROACH_EXPERT_ORIENTED_KEYWORDS.any (fun kw => strContains inf.bio kw) then 1/10 else 0
    else
      if APPROACH_CONSUMER_KEYWORDS.any (fun kw => strContains inf.bio kw) then 1/10 else 0
  let vibeBonus : ℚ :=
    let vibe := strLower (vibeOf inf)
    if vibe ≠ "" then
      if (VIBE_EXPERT_WORDS.any fun w => strContains vibe w) ∧ cls = "Expert" then 5/100
      else if (VIBE_TREND_WORDS.any fun w => strContains vibe w) ∧ cls = "Trendsetter" then 5/100
      else 0
    else 0
  let score := 3/10 + bioMatch + styleMatch + clsBonus + engagement + approachBonus + vibeBonus
    + brandIdentityMatch hashF inf bd
    + personalVariation hashF inf.username inf.followers
  max 0 (min 1 score)

/-- Composite score scaling of calculate match score v2: weighted raw
score, fit driven band, linear mapping and the final clamp to
the interval from 0.50 to 0.99. -/
noncomputable def matchTotalScoreR (simNorm uniqueScore fisNorm fitScore : ℝ) : ℝ :=
  let raw := simNorm * (2/10) + uniqueScore * (4/10) + fisNorm * (4/10)
  let scoreMin := 4/10 + fitScore * (3/10)
  let scoreMax := 65/100 + fitScore * (3/10)
  let rawN := max 0 (min 1 ((raw - 1/2) / (4/10)))
  max (1/2) (min (99/100) (scoreMin + (scoreMax - scoreMin) * rawN))

/-- Total composite score of one surviving creator. -/
noncomputable def calculateMatchScoreV2 (hashF : String → ℤ) (brandVec infVec : List ℝ)
    (fisScore : ℚ) (cls ma : String) (inf : Influencer) (bd : BrandData)
    (expertiseScore : ℚ) : ℝ :=
  matchTotalScoreR ((cosineSimilarityR brandVec infVec + 1) / 2)
    ((uniqueScoreV2 hashF inf bd cls ma : ℚ) : ℝ)
    ((fisScore : ℚ) / 100 : ℚ)
    ((calculateFitScore cls ma inf expertiseScore : ℚ) : ℝ)

/-- One surviving creator with its computed scores (one entry of the
all-results list; presentation-only breakdown fields are omitted). -/
structure ScoredEntry where
  username : String
  followers : ℕ
  classification : String
  confidence : ℚ
  fisScore : ℚ
  fisVerdict : String
  matchScore : ℝ
  bio : String
  expertiseScore : ℚ
  marketingApproach : String

/-- Per-creator analysis and filtering loop of match steps 2 and 3. -/
noncomputable def matchAllResults (hashF : String → ℤ) (bd : BrandData)
    (influencers : List Influencer) (minFis : ℚ) (productInfo : ProductInfo) : List ScoredEntry :=
  let brandVec := brandVectorizeR bd
  influencers.filterMap fun inf =>
    let cls := classify inf
    let fis := fisCalculate inf
    if fis.fisScore < minFis then none
    else
      let infVec := influencerVectorizeR inf (some cls)
      let es := evaluateExpertise inf productInfo.expertiseKeywords
      let total := calculateMatchScoreV2 hashF brandVec infVec fis.fisScore
        cls.classification productInfo.marketingApproach inf bd es
      some { username := inf.username
             followers := inf.followers
             classification := cls.classification
             confidence := cls.confidence
             fisScore := fis.fisScore
             fisVerdict := fis.verdict
             matchScore := pyRound 4 total
             bio := inf.bio
             expertiseScore := es
             marketingApproach := productInfo.marketingApproach }

/-- Preferred-role slot count, modelling the Python expression
max(1, int(top_k * 0.6)); for the machine-representable range of top_k
the double product top_k * 0.6 rounds to nearest with relative error
below half an ulp of 3k/5, so its truncation is the natural-number
quotient 3 * topK / 5. -/
def preferredSlotCount (topK : ℕ) : ℕ :=
  max 1 (3 * topK / 5)

/-- Pre-backfill slot allocation of the diverse selection, as a function
of the two pool sizes. -/
def selectCounts (nExperts nTrendsetters topK : ℕ) (preferredType : String)
    (expertCount? trendCount? : Option ℕ) : ℕ × ℕ :=
  match expertCount?, trendCount? with
  | some ec, some tc => (min nExperts ec, min nTrendsetters tc)
  | _, _ =>
    if preferredType = "Expert" then
      let e := min nExperts (preferredSlotCount topK)
      (e, min nTrendsetters (topK - e))
    else if preferredType = "Trendsetter" then
      let t := min nTrendsetters (preferredSlotCount topK)
      (min nExperts (topK - t), t)
    else
      let e := min nExperts (max 1 (topK / 2))
      (e, min nTrendsetters (topK - e))

/-- Backfill of unused slots from whichever pool has surplus, experts
first, as in the source. -/
def backfillCounts (nExperts nTrendsetters topK expCount trendCount : ℕ) : ℕ × ℕ :=
  if expCount + trendCount < topK then
    let remaining := topK - expCount - trendCount
    let extraE := if expCount < nExperts then min (nExperts - expCount) remaining else 0
    let expCount2 := expCount + extraE
    let remaining2 := remaining - extraE
    let trendCount2 :=
      if 0 < remaining2 ∧ trendCount < nTrendsetters then
        trendCount + min (nTrendsetters - trendCount) remaining2
      else trendCount
    (expCount2, trendCount2)
  else (expCount, trendCount)

/-- Stable descending sort by match score (Python sorted with reverse). -/
noncomputable def sortByScoreDesc (l : List ScoredEntry) : List ScoredEntry :=
  l.mergeSort fun a b => decide (b.matchScore ≤ a.matchScore)

/-- Diversity constrained selection (select diverse). -/
noncomputable def selectDiverse (results : List ScoredEntry) (topK : ℕ) (preferredType : String)
    (expertCount? trendCount? : Option ℕ) : List ScoredEntry :=
  let experts := sortByScoreDesc (results.filter fun r => r.classification == "Expert")
  let trendsetters := sortByScoreDesc (results.filter fun r => r.classification == "Trendsetter")
  let c0 := selectCounts experts.length trendsetters.length topK preferredType expertCount? trendCount?
  let c := backfillCounts experts.length trendsetters.length topK c0.1 c0.2
  let selected := experts.take c.1 ++ trendsetters.take c.2
  (sortByScoreDesc selected).take topK

/-- One output recommendation (justification text is presentation and is
out of the embedded core). -/
structure Recommendation where
  rank : ℕ
  username : String
  followers : ℕ
  typeLabel : String
  matchScore : ℝ
  fisScore : ℚ

/-- Output of match. -/
structure MatchOutput where
  marketingApproach : String
  recommendedType : String
  totalAnalyzed : ℕ
  totalPassedFis : ℕ
  recommendations : List Recommendation

/-- InfluencerMatcher.match. -/
noncomputable def matchFn (hashF : String → ℤ) (bd : BrandData) (influencers : List Influencer)
    (topK : ℕ) (minFis : ℚ) (expertCount? trendCount? : Option ℕ)
    (productLine : Option String) : MatchOutput :=
  let productInfo := getProductInfo bd productLine
  let ma := productInfo.marketingApproach
  let preferred := getPreferredTypeV2 ma productInfo.idealInfluencer
  let allResults := matchAllResults hashF bd influencers minFis productInfo
  let selected := selectDiverse allResults topK preferred expertCount? trendCount?
  let recs := (List.enumFrom 1 selected).map fun p =>
    { rank := p.1
      username := p.2.username
      followers := p.2.followers
      typeLabel := p.2.classification
      matchScore := min 100 (max 0 (pyRound 1 (p.2.matchScore * 100)))
      fisScore := p.2.fisScore : Recommendation }
  { marketingApproach := ma
    recommendedType := preferred
    totalAnalyzed := influencers.length
    totalPassedFis := allResults.length
    recommendations := recs }

end Amore

namespace Amore

/-! ## Derived helper and concrete test records used by the theorems -/

/-- Expert-weight component of the role vector produced by the classifier
for given weighted keyword totals; definitionally the first component of
the role vector built by classify. -/
def expertWeightOf (eScore tScore : ℚ) (img : Option ImageAnalysis) : ℚ :=
  (roleVectorOf (classifyFromScores eScore tScore img).1 (classifyFromScores eScore tScore img).2).1

/-- Creator of spec scenario A: two posts with the given view, like and
comment counters, a 92 percent Korean audience and a 3.2 day upload
interval. -/
def c5Influencer : Influencer :=
  { username := "test_user"
    bio := ""
    followers := 0
    recentPosts :=
      [{ views := 45000, likes := 3200, comments := 89, caption := "" },
       { views := 38000, likes := 2800, comments := 72, caption := "" }]
    audienceCountries := [("KR", 92/100), ("US", 3/100)]
    avgUploadIntervalDays := 16/5
    imageAnalysis := none }

/-- Creator whose visual descriptor reports zero professionalism and zero
trend relevance. -/
def c2Influencer : Influencer :=
  { username := "lowprof"
    bio := ""
    followers := 0
    recentPosts := []
    audienceCountries := []
    avgUploadIntervalDays := 0
    imageAnalysis := some
      { dominantStyle := none
        professionalismScore := some 0
        trendRelevanceScore := some 0
        vibe := none
        aestheticTags := [] }
  }

/-- Creator whose visual descriptor reports professionalism 0.5 and trend
relevance 0.7, inside the well-formed score range. -/
def c2WitnessInfluencer : Influencer :=
  { username := "midprof"
    bio := ""
    followers := 0
    recentPosts := []
    audienceCountries := []
    avgUploadIntervalDays := 0
    imageAnalysis := some
      { dominantStyle := none
        professionalismScore := some (1/2)
        trendRelevanceScore := some (7/10)
        vibe := none
        aestheticTags := [] }
  }

/-- Creator record with no posts, no audience data and no visual data;
its trust score evaluates to 46.0. -/
def c8Influencer : Influencer :=
  { username := "empty_user"
    bio := ""
    followers := 0
    recentPosts := []
    audienceCountries := []
    avgUploadIntervalDays := 0
    imageAnalysis := none }

/-- Minimal brand context used to instantiate match in witnesses. -/
def c8Brand : BrandData :=
  { brandName := "브랜드"
    aestheticStyle := "Trendy"
    slogan := ""
    coreValues := []
    targetKeywords := []
    brandPhilosophy := ""
    expertiseFocus := ""
    productType := "샴푸"
    campaignDescription := ""
    expertiseLevel := "low"
    marketingApproach := none
    descriptionOverride := false
    productLines := [] }

end Amore

namespace Amore

/-! ## Shared lemmas -/

/-- Half-even rounding never exceeds an integer upper bound of its input. -/
theorem roundHalfEven_le {α : Type} [LinearOrderedField α] [FloorRing α] (m : α) (B : ℤ)
    (h : m ≤ B) : roundHalfEven m ≤ B := by
  unfold roundHalfEven
  have hfl : ⌊m⌋ ≤ B := by simpa using Int.floor_le_floor h
  split
  · exact hfl
  · rename_i hlt
    push_neg at hlt
    have hmgt : (⌊m⌋ : α) < m := by
      have h0 : (0 : α) < m - ⌊m⌋ := lt_of_lt_of_le (by norm_num) hlt
      linarith
    have hltB : ⌊m⌋ < B := by
      by_contra hc
      push_neg at hc
      have hcast : (B : α) ≤ ⌊m⌋ := by exact_mod_cast hc
      exact lt_irrefl _ (lt_of_le_of_lt (le_trans h hcast) hmgt)
    split
    · omega
    · split
      · exact hfl
      · omega

/-- Half-even rounding never undercuts an integer lower bound of its input. -/
theorem le_roundHalfEven {α : Type} [LinearOrderedField α] [FloorRing α] (m : α) (A : ℤ)
    (h : (A : α) ≤ m) : A ≤ roundHalfEven m := by
  have hfl : A ≤ ⌊m⌋ := Int.le_floor.mpr h
  unfold roundHalfEven
  split
  · exact hfl
  · split
    · omega
    · split
      · exact hfl
      · omega

/-- Decimal rounding keeps a value inside an interval whose endpoints are
exact multiples of the rounding grain. -/
theorem pyRound_bounds {α : Type} [LinearOrderedField α] [FloorRing α] (d : ℕ) (x : α) (A B : ℤ)
    (h1 : (A : α) ≤ x * 10 ^ d) (h2 : x * 10 ^ d ≤ B) :
    (A : α) / 10 ^ d ≤ pyRound d x ∧ pyRound d x ≤ (B : α) / 10 ^ d := by
  have hp : (0 : α) < 10 ^ d := by positivity
  constructor
  · unfold pyRound
    have hc : (A : α) ≤ (roundHalfEven (x * 10 ^ d) : α) := by
      exact_mod_cast le_roundHalfEven (x * 10 ^ d) A h1
    gcongr
  · unfold pyRound
    have hc : ((roundHalfEven (x * 10 ^ d) : ℤ) : α) ≤ (B : α) := by
      exact_mod_cast roundHalfEven_le (x * 10 ^ d) B h2
    gcongr

/-- The natural floor of six tenths of a natural number is the
corresponding natural quotient. -/
theorem floorSixTenths (k : ℕ) : ⌊(6 : ℚ)/10 * k⌋₊ = 3 * k / 5 := by
  rw [show (6 : ℚ)/10 = 3/5 by norm_num]
  rw [div_mul_eq_mul_div]
  rw [show ((3 : ℚ) * k) = ((3 * k : ℕ) : ℚ) by push_cast; ring]
  rw [show ((5 : ℚ)) = ((5 : ℕ) : ℚ) by norm_num]
  rw [Nat.floor_div_nat, Nat.floor_natCast]

/-! ## Claim C4 -/

/-- C4: under the professional marketing approach the fit score of a
creator classified Expert is at least 0.85 and the fit score of a creator
classified Trendsetter is at most 0.25, for every creator record and
every expertise score. -/
theorem C4_professional_fit_separation (inf : Influencer) (es : ℚ) :
    (85/100 : ℚ) ≤ calculateFitScore "Expert" "professional" inf es ∧
    calculateFitScore "Trendsetter" "professional" inf es ≤ 25/100 := by
  constructor
  · simp only [calculateFitScore, String.reduceEq, reduceIte]
    rw [le_min_iff]
    refine ⟨by norm_num, ?_⟩
    split_ifs <;> norm_num
  · simp only [calculateFitScore, String.reduceEq, reduceIte]
    norm_num

/-! ## Claim C2 -/

/-- C2 counterexample: a creator with visual professionalism score 0 (a
legal value in the [0,1] range of the data model) gets fit score 0.19
under the expert oriented approach as a Trendsetter, strictly below the
0.25 lower edge of the band the claim asserts. -/
theorem C2_counterexample_low_prof :
    calculateFitScore "Trendsetter" "expert_oriented" c2Influencer 0 = 19/100 ∧
    (19/100 : ℚ) < 25/100 := by
  constructor
  · simp only [calculateFitScore, profScoreOf, c2Influencer, String.reduceEq, reduceIte]
    norm_num
  · norm_num

/-- C2 amended: the claimed bands hold once the relevant visual score is
at or above the floor baked into the formula: professionalism at least
0.3 gives the expert oriented Trendsetter fit in [0.25, 0.40] and the
consumer Expert fit in [0.5, 0.65]; trend relevance at least 0.5 gives
the consumer Trendsetter fit in [0.85, 1]. -/
theorem C2_fit_bands_amended (inf : Influencer) (es : ℚ) :
    ((3/10 : ℚ) ≤ profScoreOf inf → profScoreOf inf ≤ 1 →
      (25/100 : ℚ) ≤ calculateFitScore "Trendsetter" "expert_oriented" inf es ∧
      calculateFitScore "Trendsetter" "expert_oriented" inf es ≤ 40/100) ∧
    ((1/2 : ℚ) ≤ trendScoreOf inf → trendScoreOf inf ≤ 1 →
      (85/100 : ℚ) ≤ calculateFitScore "Trendsetter" "consumer" inf es ∧
      calculateFitScore "Trendsetter" "consumer" inf es ≤ 1) ∧
    ((3/10 : ℚ) ≤ profScoreOf inf → profScoreOf inf ≤ 1 →
      (1/2 : ℚ) ≤ calculateFitScore "Expert" "consumer" inf es ∧
      calculateFitScore "Expert" "consumer" inf es ≤ 65/100) := by
  refine ⟨fun h1 h2 => ?_, fun h1 h2 => ?_, fun h1 h2 => ?_⟩
  · simp only [calculateFitScore, String.reduceEq, reduceIte]
    constructor <;> linarith
  · simp only [calculateFitScore, String.reduceEq, reduceIte]
    constructor
    · rw [le_min_iff]
      refine ⟨by norm_num, ?_⟩
      split_ifs <;> linarith
    · exact (min_le_left _ _).trans (by norm_num)
  · simp only [calculateFitScore, String.reduceEq, reduceIte]
    constructor <;> linarith

/-- C2 amended witness at a creator with professionalism 0.5 and trend
relevance 0.7. -/
theorem C2_fit_bands_amended_witness :
    ((3/10 : ℚ) ≤ profScoreOf c2WitnessInfluencer ∧ profScoreOf c2WitnessInfluencer ≤ 1 ∧
     (1/2 : ℚ) ≤ trendScoreOf c2WitnessInfluencer ∧ trendScoreOf c2WitnessInfluencer ≤ 1) ∧
    ((25/100 : ℚ) ≤ calculateFitScore "Trendsetter" "expert_oriented" c2WitnessInfluencer 0 ∧
     (85/100 : ℚ) ≤ calculateFitScore "Trendsetter" "consumer" c2WitnessInfluencer 0 ∧
     (1/2 : ℚ) ≤ calculateFitScore "Expert" "consumer" c2WitnessInfluencer 0) := by
  have hp : (3/10 : ℚ) ≤ profScoreOf c2WitnessInfluencer ∧ profScoreOf c2WitnessInfluencer ≤ 1 := by
    constructor <;> simp [profScoreOf, c2WitnessInfluencer] <;> norm_num
  have ht : (1/2 : ℚ) ≤ trendScoreOf c2WitnessInfluencer ∧ trendScoreOf c2WitnessInfluencer ≤ 1 := by
    constructor <;> simp [trendScoreOf, c2WitnessInfluencer] <;> norm_num
  refine ⟨⟨hp.1, hp.2, ht.1, ht.2⟩, ?_, ?_, ?_⟩
  · exact ((C2_fit_bands_amended c2WitnessInfluencer 0).1 hp.1 hp.2).1
  · exact ((C2_fit_bands_amended c2WitnessInfluencer 0).2.1 ht.1 ht.2).1
  · exact ((C2_fit_bands_amended c2WitnessInfluencer 0).2.2 hp.1 hp.2).1

/-! ## Claim C3 -/

/-- C3 counterexample: with topK = 2, preferred role Expert, no explicit
counts and both pools of size 2, the code allocates one preferred slot
while the ceiling formula of the claim demands two. -/
theorem C3_counterexample_topk_two :
    (selectCounts 2 2 2 "Expert" none none).1 = 1 ∧
    min 2 (max 1 ⌈(6 : ℚ)/10 * 2⌉₊) = 2 := by
  constructor
  · decide
  · have hc : ⌈(6 : ℚ)/10 * 2⌉₊ = 2 := by
      rw [show (6 : ℚ)/10 * 2 = 6/5 by norm_num]
      rw [Nat.ceil_eq_iff (by norm_num)]
      constructor <;> norm_num
    rw [hc]
    decide

/-- C3 amended: for every pool size and every topK, the pre-backfill
allocation to the preferred role (Expert or Trendsetter, no explicit
counts) is the pool-capped max(1, floor(0.6 topK)), the floor rather than
the ceiling of the claim. -/
theorem C3_preferred_alloc_is_floor (nExperts nTrendsetters topK : ℕ) :
    (selectCounts nExperts nTrendsetters topK "Expert" none none).1
      = min nExperts (max 1 ⌊(6 : ℚ)/10 * topK⌋₊) ∧
    (selectCounts nExperts nTrendsetters topK "Trendsetter" none none).2
      = min nTrendsetters (max 1 ⌊(6 : ℚ)/10 * topK⌋₊) := by
  have hfl : ⌊(6 : ℚ)/10 * topK⌋₊ = 3 * topK / 5 := floorSixTenths topK
  constructor <;> simp [selectCounts, preferredSlotCount, hfl]

/-! ## Claim C9 -/

/-- C9: the per-creator variation is not a function of the handle and
follower count alone; it also depends on the salt of the builtin Python
string hash, which changes between interpreter runs, so the value is not
reproducible across runs.  Two legal per-run hash functions give
different variation for the same creator. -/
theorem C9_personal_variation_depends_on_hash_salt :
    personalVariation (fun _ => 0) "style_creator" 50000 ≠
      personalVariation (fun _ => 500) "style_creator" 50000 := by
  norm_num [personalVariation]

end Amore

namespace Amore

/-! ## Classifier lemmas and claims C6, C7 -/

/-- Expert keyword weights are nonnegative. -/
theorem expertKwWeight_nonneg (kw : String) : 0 ≤ expertKwWeight kw := by
  unfold expertKwWeight
  split_ifs <;> norm_num

/-- Trendsetter keyword weights are nonnegative. -/
theorem trendKwWeight_nonneg (kw : String) : 0 ≤ trendKwWeight kw := by
  unfold trendKwWeight
  split_ifs <;> norm_num

/-- A weighted keyword total over nonnegative weights is nonnegative. -/
theorem weightedKwTotal_nonneg (text : String) (kws : List String) (w : String → ℚ)
    (hw : ∀ kw, 0 ≤ w kw) : 0 ≤ weightedKwTotal text kws w := by
  unfold weightedKwTotal
  apply List.sum_nonneg
  intro x hx
  rw [List.mem_map] at hx
  obtain ⟨kw, _, rfl⟩ := hx
  exact mul_nonneg (by positivity) (hw kw)

/-- The confidence produced by the classifier core lies in [0, 1] for
nonnegative keyword totals, across all branches. -/
theorem classifyFromScores_conf_bounds (e t : ℚ) (img : Option ImageAnalysis)
    (he : 0 ≤ e) (ht : 0 ≤ t) :
    0 ≤ (classifyFromScores e t img).2 ∧ (classifyFromScores e t img).2 ≤ 1 := by
  by_cases h0 : e + t = 0
  · cases img with
    | none =>
      simp only [classifyFromScores, if_pos h0]
      norm_num
    | some ia =>
      simp only [classifyFromScores, if_pos h0]
      split_ifs with h1 h2
      · exact ⟨le_min (by norm_num) (le_of_lt (lt_trans (by norm_num) h1.2)),
          (min_le_left _ _).trans (by norm_num)⟩
      · exact ⟨le_min (by norm_num) (le_of_lt (lt_trans (by norm_num) h2.2)),
          (min_le_left _ _).trans (by norm_num)⟩
      · norm_num
  · have hpos : 0 < e + t := (add_nonneg he ht).lt_of_ne (Ne.symm h0)
    simp only [classifyFromScores, if_neg h0]
    split_ifs
    · exact ⟨div_nonneg he hpos.le, (div_le_one hpos).mpr (by linarith)⟩
    · exact ⟨div_nonneg ht hpos.le, (div_le_one hpos).mpr (by linarith)⟩

/-- C6: for every creator record the role vector components sum exactly
to one and both lie in [0, 1], across the keyword branch, the visual
fallback branch and the no-data default. -/
theorem C6_role_vector_wellformed (inf : Influencer) :
    (classify inf).roleVector.1 + (classify inf).roleVector.2 = 1 ∧
    (0 ≤ (classify inf).roleVector.1 ∧ (classify inf).roleVector.1 ≤ 1) ∧
    (0 ≤ (classify inf).roleVector.2 ∧ (classify inf).roleVector.2 ≤ 1) := by
  have he : 0 ≤ weightedKwTotal (fullTextOf inf) EXPERT_KEYWORDS expertKwWeight :=
    weightedKwTotal_nonneg _ _ _ expertKwWeight_nonneg
  have ht : 0 ≤ weightedKwTotal (fullTextOf inf) TRENDSETTER_KEYWORDS trendKwWeight :=
    weightedKwTotal_nonneg _ _ _ trendKwWeight_nonneg
  obtain ⟨h0, h1⟩ := classifyFromScores_conf_bounds _ _ inf.imageAnalysis he ht
  simp only [classify, roleVectorOf]
  split_ifs
  · exact ⟨by ring, ⟨by simpa using h0, by simpa using h1⟩, ⟨by simp; linarith, by simp; linarith⟩⟩
  · exact ⟨by ring, ⟨by simp; linarith, by simp; linarith⟩, ⟨by simpa using h0, by simpa using h1⟩⟩

/-- With a positive combined keyword total, the expert weight equals the
expert share of the total, whichever label wins. -/
theorem expertWeightOf_pos_total (e t : ℚ) (img : Option ImageAnalysis) (hpos : 0 < e + t) :
    expertWeightOf e t img = e / (e + t) := by
  have h0 : ¬ (e + t = 0) := ne_of_gt hpos
  by_cases hc : e / (e + t) > t / (e + t)
  · simp only [expertWeightOf, classifyFromScores, if_neg h0, if_pos hc, roleVectorOf,
      String.reduceEq, reduceIte]
  · simp only [expertWeightOf, classifyFromScores, if_neg h0, if_neg hc, roleVectorOf,
      String.reduceEq, reduceIte]
    field_simp

/-- The expert weight lies in [0, 1] for nonnegative totals. -/
theorem expertWeightOf_mem (e t : ℚ) (img : Option ImageAnalysis)
    (he : 0 ≤ e) (ht : 0 ≤ t) :
    0 ≤ expertWeightOf e t img ∧ expertWeightOf e t img ≤ 1 := by
  obtain ⟨h0, h1⟩ := classifyFromScores_conf_bounds e t img he ht
  simp only [expertWeightOf, roleVectorOf]
  split_ifs
  · exact ⟨by simpa using h0, by simpa using h1⟩
  · exact ⟨by simp; linarith, by simp; linarith⟩

/-- C7: the expert weight component of the role vector produced by the
classifier is the one computed by classify, and it never decreases when
the weighted expert keyword total grows with the trendsetter total and
all other inputs held fixed, including across the transition out of the
zero-total fallback branches. -/
theorem C7_expert_weight_monotone (e e2 t : ℚ) (img : Option ImageAnalysis)
    (he : 0 ≤ e) (hee : e ≤ e2) (ht : 0 ≤ t) :
    (∀ inf : Influencer, (classify inf).roleVector.1 =
        expertWeightOf (weightedKwTotal (fullTextOf inf) EXPERT_KEYWORDS expertKwWeight)
          (weightedKwTotal (fullTextOf inf) TRENDSETTER_KEYWORDS trendKwWeight)
          inf.imageAnalysis) ∧
    expertWeightOf e t img ≤ expertWeightOf e2 t img := by
  constructor
  · intro inf
    rfl
  · by_cases h0 : e + t = 0
    · have het : e = 0 := by linarith
      have htt : t = 0 := by linarith
      subst het
      subst htt
      by_cases h2 : e2 = 0
      · subst h2
        exact le_refl _
      · have hpos2 : (0 : ℚ) < e2 + 0 := by
          have : 0 < e2 := lt_of_le_of_ne hee (Ne.symm h2)
          linarith
        rw [expertWeightOf_pos_total e2 0 img hpos2]
        have hrhs : e2 / (e2 + 0) = 1 := by
          rw [add_zero]
          exact div_self h2
        rw [hrhs]
        exact (expertWeightOf_mem 0 0 img le_rfl le_rfl).2
    · have hpos : 0 < e + t := (add_nonneg he ht).lt_of_ne (Ne.symm h0)
      have hpos2 : 0 < e2 + t := by linarith
      rw [expertWeightOf_pos_total e t img hpos, expertWeightOf_pos_total e2 t img hpos2]
      rw [div_le_div_iff₀ hpos hpos2]
      nlinarith [mul_le_mul_of_nonneg_right hee ht]

/-- C7 witness at concrete totals 0 to 2 with trendsetter total 1. -/
theorem C7_expert_weight_monotone_witness :
    ((0 : ℚ) ≤ 0 ∧ (0 : ℚ) ≤ 2 ∧ (0 : ℚ) ≤ 1) ∧
    expertWeightOf 0 1 none ≤ expertWeightOf 2 1 none :=
  ⟨by norm_num, (C7_expert_weight_monotone 0 2 1 none (by norm_num) (by norm_num) (by norm_num)).2⟩

end Amore

namespace Amore

/-! ## Claim C5 -/

/-- C5: spec scenario A.  The concrete creator with posts
(45000, 3200, 89) and (38000, 2800, 72), Korean audience share 0.92 and
upload interval 3.2 days scores at least 80 and is verdicted trusted
(the exact reported score is 88.1). -/
theorem C5_scenario_a_trusted :
    (80 : ℚ) ≤ (fisCalculate c5Influencer).fisScore ∧
    (fisCalculate c5Influencer).verdict = "신뢰 계정" := by
  have hv : viewVariability c5Influencer.recentPosts = 95 := by
    norm_num [viewVariability, c5Influencer]
  have ha : engagementAsymmetry c5Influencer.recentPosts = 90 := by
    norm_num [engagementAsymmetry, c5Influencer, List.filterMap, List.cons_ne_nil]
  have hco : commentEntropy c5Influencer.recentPosts = 90 := by
    norm_num [commentEntropy, c5Influencer, List.filterMap, List.cons_ne_nil]
  have hacs : activityStability c5Influencer.avgUploadIntervalDays = 90 := by
    norm_num [activityStability, c5Influencer]
  have hg : geographicConsistency c5Influencer = 95 := by
    have hk : hasKoreanChar "" = false := by decide
    norm_num [geographicConsistency, c5Influencer, List.lookup, hk, List.cons_ne_nil]
  have harith : (((25 : ℚ)/100 * 95 + 20/100 * 90 + 25/100 * 90 + 15/100 * 90) * (95/100)
      + 15/100 * 95) = 7049/80 := by norm_num
  have hmin : min (100 : ℚ) (7049/80) = 7049/80 := by
    rw [min_eq_right]
    norm_num
  have hmax : max (0 : ℚ) (7049/80) = 7049/80 := by
    rw [max_eq_right]
    norm_num
  constructor
  · simp only [fisCalculate, hv, ha, hco, hacs, hg, harith, hmin, hmax]
    norm_num [pyRound, roundHalfEven]
  · simp only [fisCalculate, hv, ha, hco, hacs, hg, harith, hmin, hmax]
    rw [if_pos (by norm_num : (80 : ℚ) ≤ 7049/80)]

end Amore

namespace Amore

/-! ## Claim C8 -/

/-- When every creator scores below the threshold the per-creator loop
produces no surviving entry. -/
theorem matchAllResults_nil (hashF : String → ℤ) (bd : BrandData)
    (influencers : List Influencer) (minFis : ℚ) (pinfo : ProductInfo)
    (h : ∀ inf ∈ influencers, (fisCalculate inf).fisScore < minFis) :
    matchAllResults hashF bd influencers minFis pinfo = [] := by
  simp only [matchAllResults]
  rw [List.filterMap_eq_nil_iff]
  intro inf hin
  simp [h inf hin]

/-- Diverse selection of an empty pool is empty. -/
theorem selectDiverse_nil (topK : ℕ) (pref : String) (ec tc : Option ℕ) :
    selectDiverse [] topK pref ec tc = [] := by
  simp [selectDiverse, sortByScoreDesc]

/-- C8: if every creator of the list has a trust score below the minimum
threshold, match returns normally with an empty recommendation list and
zero creators counted as passing the filter. -/
theorem C8_below_threshold_empty (hashF : String → ℤ) (bd : BrandData)
    (influencers : List Influencer) (topK : ℕ) (minFis : ℚ)
    (ec tc : Option ℕ) (pl : Option String)
    (h : ∀ inf ∈ influencers, (fisCalculate inf).fisScore < minFis) :
    (matchFn hashF bd influencers topK minFis ec tc pl).recommendations = [] ∧
    (matchFn hashF bd influencers topK minFis ec tc pl).totalPassedFis = 0 := by
  have hnil := matchAllResults_nil hashF bd influencers minFis (getProductInfo bd pl) h
  constructor
  · simp only [matchFn, hnil, selectDiverse_nil]
    rfl
  · simp only [matchFn, hnil]
    rfl

/-- C8 witness: one creator with empty statistics has trust score 46.0,
below the threshold 50, and match on that single-creator list returns no
recommendation. -/
theorem C8_below_threshold_empty_witness :
    (∀ inf ∈ [c8Influencer], (fisCalculate inf).fisScore < 50) ∧
    (matchFn (fun _ => 0) c8Brand [c8Influencer] 5 50 none none none).recommendations = [] := by
  have hmin46 : min (100 : ℚ) 46 = 46 := by
    rw [min_eq_right]
    norm_num
  have hmax46 : max (0 : ℚ) 46 = 46 := by
    rw [max_eq_right]
    norm_num
  have hfis : (fisCalculate c8Influencer).fisScore = 46 := by
    have hsub : ((25 : ℚ)/100 * 50 + 20/100 * 50 + 25/100 * 50 + 15/100 * 50) * (80/100)
        + 15/100 * 80 = 46 := by norm_num
    simp only [fisCalculate, viewVariability, engagementAsymmetry, commentEntropy,
      activityStability, geographicConsistency, c8Influencer]
    norm_num [hsub, hmin46, hmax46, pyRound, roundHalfEven]
  have hyp : ∀ inf ∈ [c8Influencer], (fisCalculate inf).fisScore < 50 := by
    intro inf hin
    rw [List.mem_singleton] at hin
    subst hin
    rw [hfis]
    norm_num
  exact ⟨hyp, (C8_below_threshold_empty (fun _ => 0) c8Brand [c8Influencer] 5 50 none none none hyp).1⟩

end Amore

namespace Amore

/-! ## Claim C1 -/

/-- The band-mapped composite score is clamped into [0.50, 0.99] for all
real-valued component inputs. -/
theorem matchTotalScoreR_bounds (s u f fit : ℝ) :
    (1/2 : ℝ) ≤ matchTotalScoreR s u f fit ∧ matchTotalScoreR s u f fit ≤ 99/100 := by
  unfold matchTotalScoreR
  exact ⟨le_max_left _ _, max_le (by norm_num) (min_le_left _ _)⟩

/-- The total composite score of one creator is clamped into [0.50, 0.99]. -/
theorem calculateMatchScoreV2_bounds (hashF : String → ℤ) (brandVec infVec : List ℝ)
    (fisScore : ℚ) (cls ma : String) (inf : Influencer) (bd : BrandData) (es : ℚ) :
    (1/2 : ℝ) ≤ calculateMatchScoreV2 hashF brandVec infVec fisScore cls ma inf bd es ∧
    calculateMatchScoreV2 hashF brandVec infVec fisScore cls ma inf bd es ≤ 99/100 := by
  unfold calculateMatchScoreV2
  exact matchTotalScoreR_bounds _ _ _ _

/-- Every entry surviving the per-creator loop carries a rounded match
score still inside [0.50, 0.99]. -/
theorem matchEntry_bounds (hashF : String → ℤ) (bd : BrandData)
    (influencers : List Influencer) (minFis : ℚ) (pinfo : ProductInfo) :
    ∀ e ∈ matchAllResults hashF bd influencers minFis pinfo,
      (1/2 : ℝ) ≤ e.matchScore ∧ e.matchScore ≤ 99/100 := by
  intro e he
  simp only [matchAllResults, List.mem_filterMap] at he
  obtain ⟨inf, hin, heq⟩ := he
  by_cases hc : (fisCalculate inf).fisScore < minFis
  · rw [if_pos hc] at heq
    exact absurd heq (by simp)
  · rw [if_neg hc] at heq
    have heq2 := Option.some.inj heq
    obtain ⟨hb1, hb2⟩ := calculateMatchScoreV2_bounds hashF (brandVectorizeR bd)
      (influencerVectorizeR inf (some (classify inf))) (fisCalculate inf).fisScore
      (classify inf).classification pinfo.marketingApproach inf bd
      (evaluateExpertise inf pinfo.expertiseKeywords)
    have hms : e.matchScore = pyRound 4 (calculateMatchScoreV2 hashF (brandVectorizeR bd)
        (influencerVectorizeR inf (some (classify inf))) (fisCalculate inf).fisScore
        (classify inf).classification pinfo.marketingApproach inf bd
        (evaluateExpertise inf pinfo.expertiseKeywords)) := by
      rw [← heq2]
    rw [hms]
    obtain ⟨hl, hr⟩ := pyRound_bounds (α := ℝ) 4
      (calculateMatchScoreV2 hashF (brandVectorizeR bd)
        (influencerVectorizeR inf (some (classify inf))) (fisCalculate inf).fisScore
        (classify inf).classification pinfo.marketingApproach inf bd
        (evaluateExpertise inf pinfo.expertiseKeywords)) 5000 9900
      (by push_cast; nlinarith) (by push_cast; nlinarith)
    constructor
    · calc (1/2 : ℝ) = (5000 : ℝ) / 10 ^ 4 := by norm_num
      _ ≤ _ := hl
    · refine hr.trans ?_
      norm_num

/-- The to-percent display clamp maps a composite in [0.50, 0.99] into
the interval [50, 99]. -/
theorem displayScore_bounds (x : ℝ) (h1 : (1/2 : ℝ) ≤ x) (h2 : x ≤ 99/100) :
    (50 : ℝ) ≤ min 100 (max 0 (pyRound 1 (x * 100))) ∧
    min 100 (max 0 (pyRound 1 (x * 100))) ≤ 99 := by
  obtain ⟨hl, hr⟩ := pyRound_bounds (α := ℝ) 1 (x * 100) 500 990
    (by push_cast; nlinarith) (by push_cast; nlinarith)
  have hy1 : (50 : ℝ) ≤ pyRound 1 (x * 100) := by
    calc (50 : ℝ) = (500 : ℝ) / 10 ^ 1 := by norm_num
    _ ≤ _ := hl
  have hy2 : pyRound 1 (x * 100) ≤ 99 := by
    calc pyRound 1 (x * 100) ≤ (990 : ℝ) / 10 ^ 1 := hr
    _ = 99 := by norm_num
  constructor
  · exact le_min (by norm_num) (le_max_of_le_right hy1)
  · exact (min_le_right _ _).trans (max_le (by norm_num) hy2)

/-- Everything selected comes from the surviving pool. -/
theorem mem_of_mem_selectDiverse (results : List ScoredEntry) (topK : ℕ) (pref : String)
    (ec tc : Option ℕ) (e : ScoredEntry) (he : e ∈ selectDiverse results topK pref ec tc) :
    e ∈ results := by
  simp only [selectDiverse, sortByScoreDesc] at he
  have h1 := List.take_subset _ _ he
  rw [List.mem_mergeSort] at h1
  rcases List.mem_append.1 h1 with h2 | h2 <;>
  · have h3 := List.take_subset _ _ h2
    rw [List.mem_mergeSort] at h3
    exact List.mem_of_mem_filter h3

/-- C1: every surviving entry has composite score in [0.50, 0.99], and
every recommendation returned by match displays a match score percentage
in [50, 99]. -/
theorem C1_composite_scores_in_band (hashF : String → ℤ) (bd : BrandData)
    (influencers : List Influencer) (topK : ℕ) (minFis : ℚ) (ec tc : Option ℕ)
    (pl : Option String) :
    List.Forall (fun e => (1/2 : ℝ) ≤ e.matchScore ∧ e.matchScore ≤ 99/100)
      (matchAllResults hashF bd influencers minFis (getProductInfo bd pl)) ∧
    List.Forall (fun r => (50 : ℝ) ≤ r.matchScore ∧ r.matchScore ≤ 99)
      (matchFn hashF bd influencers topK minFis ec tc pl).recommendations := by
  have hent := matchEntry_bounds hashF bd influencers minFis (getProductInfo bd pl)
  constructor
  · rw [List.forall_iff_forall_mem]
    exact hent
  · rw [List.forall_iff_forall_mem]
    intro r hr
    simp only [matchFn, List.mem_map] at hr
    obtain ⟨p, hp, hre⟩ := hr
    have hmem : p.2 ∈ selectDiverse
        (matchAllResults hashF bd influencers minFis (getProductInfo bd pl)) topK
        (getPreferredTypeV2 (getProductInfo bd pl).marketingApproach
          (getProductInfo bd pl).idealInfluencer) ec tc := by
      have hsnd := List.enumFrom_map_snd 1 (selectDiverse
        (matchAllResults hashF bd influencers minFis (getProductInfo bd pl)) topK
        (getPreferredTypeV2 (getProductInfo bd pl).marketingApproach
          (getProductInfo bd pl).idealInfluencer) ec tc)
      rw [← hsnd]
      exact List.mem_map_of_mem Prod.snd hp
    have hin := mem_of_mem_selectDiverse _ _ _ _ _ _ hmem
    obtain ⟨hb1, hb2⟩ := hent _ hin
    have := displayScore_bounds _ hb1 hb2
    rw [← hre]
    exact this

end Amore

namespace Amore

/-! ## Claim C10 -/

/-- Sum of squares of a rational vector cast to the reals. -/
theorem sumSqR_cast (l : List ℚ) :
    sumSqR (l.map fun x : ℚ => (x : ℝ)) = ((sumSqQ l : ℚ) : ℝ) := by
  induction l with
  | nil => simp [sumSqR, sumSqQ]
  | cons a t ih =>
    simp only [List.map_cons, List.sum_cons, sumSqR, sumSqQ] at ih ⊢
    rw [Rat.cast_add, Rat.cast_pow, ih]

/-- Dividing every component by a constant divides the sum of squares by
its square. -/
theorem sumSq_map_div (l : List ℚ) (c : ℝ) :
    sumSqR (l.map fun x : ℚ => (x : ℝ) / c) = sumSqR (l.map fun x : ℚ => (x : ℝ)) / c ^ 2 := by
  induction l with
  | nil => simp [sumSqR]
  | cons a t ih =>
    simp only [List.map_cons, List.sum_cons, sumSqR] at ih ⊢
    rw [div_pow, ih, add_div]

/-- The source normalizer returns a vector of squared norm one whenever
the input has positive squared magnitude. -/
theorem sumSqR_normalizeQR (v : List ℚ) (h : 0 < sumSqQ v) :
    sumSqR (normalizeQR v) = 1 := by
  have hS : (0 : ℝ) < ((sumSqQ v : ℚ) : ℝ) := by exact_mod_cast h
  have hsq : 0 < Real.sqrt ((sumSqQ v : ℚ) : ℝ) := Real.sqrt_pos.mpr hS
  unfold normalizeQR
  rw [if_pos hsq, sumSq_map_div, sumSqR_cast, Real.sq_sqrt hS.le]
  exact div_self (ne_of_gt hS)

/-- Brand colorfulness is floored at 0.3. -/
theorem brandColorfulness_ge (bd : BrandData) : (3/10 : ℚ) ≤ brandColorfulness bd := by
  unfold brandColorfulness
  apply le_max_of_le_left
  apply le_min (by norm_num)
  have h0 : (0 : ℚ) ≤ (countMatched COLORFUL_CAMPAIGN_KEYWORDS bd.campaignDescription : ℚ)
      * (15/100) := by positivity
  linarith

/-- Brand naturalness is floored at 0.3. -/
theorem brandNaturalScore_ge (bd : BrandData) : (3/10 : ℚ) ≤ brandNaturalScore bd := by
  unfold brandNaturalScore
  apply le_max_of_le_left
  apply le_min (by norm_num)
  have h0 : (0 : ℚ) ≤ (countMatched NATURAL_CAMPAIGN_KEYWORDS bd.campaignDescription : ℚ)
      * (15/100) := by positivity
  linarith

/-- Brand modernity is floored at 0.3. -/
theorem brandModernScore_ge (bd : BrandData) : (3/10 : ℚ) ≤ brandModernScore bd := by
  unfold brandModernScore
  apply le_max_of_le_left
  apply le_min (by norm_num)
  have h0 : (0 : ℚ) ≤ (countMatched TRENDY_CAMPAIGN_KEYWORDS bd.campaignDescription : ℚ)
      * (15/100) := by positivity
  linarith

/-- Influencer colorfulness is floored at 0.3. -/
theorem infColorfulness_ge (inf : Influencer) : (3/10 : ℚ) ≤ infColorfulness inf := by
  unfold infColorfulness
  have h0 : (0 : ℚ) ≤ (countMatched INF_COLORFUL_KEYWORDS (infCaptions inf) : ℚ) * (2/10) := by
    positivity
  cases h : inf.imageAnalysis with
  | none =>
    simp only [h]
    apply le_min (by norm_num)
    linarith
  | some ia =>
    simp only [h]
    apply le_min (by norm_num)
    split_ifs
    · have := le_max_right ((countMatched INF_COLORFUL_KEYWORDS (infCaptions inf) : ℚ) * (2/10))
        ((8 : ℚ)/10)
      linarith
    · linarith

/-- Influencer naturalness is floored at 0.3. -/
theorem infNaturalScore_ge (inf : Influencer) : (3/10 : ℚ) ≤ infNaturalScore inf := by
  unfold infNaturalScore
  have h0 : (0 : ℚ) ≤ (countMatched INF_NATURAL_KEYWORDS (infCaptions inf) : ℚ) * (2/10) := by
    positivity
  cases h : inf.imageAnalysis with
  | none =>
    simp only [h]
    apply le_min (by norm_num)
    linarith
  | some ia =>
    simp only [h]
    apply le_min (by norm_num)
    split_ifs
    · have := le_max_right ((countMatched INF_NATURAL_KEYWORDS (infCaptions inf) : ℚ) * (2/10))
        ((8 : ℚ)/10)
      linarith
    · linarith

/-- Influencer modernity is floored at 0.3 when the visual trend
relevance is nonnegative, as the data model requires. -/
theorem infModernScore_ge (inf : Influencer) (ht : 0 ≤ trendScoreOf inf) :
    (3/10 : ℚ) ≤ infModernScore inf := by
  unfold infModernScore
  have h0 : (0 : ℚ) ≤ (countMatched INF_MODERN_KEYWORDS (infCaptions inf) : ℚ) * (2/10) := by
    positivity
  cases h : inf.imageAnalysis with
  | none =>
    simp only [h]
    apply le_min (by norm_num)
    linarith
  | some ia =>
    have ht2 : (0 : ℚ) ≤ ia.trendRelevanceScore.getD (1/2) := by
      simpa [trendScoreOf, h] using ht
    simp only [h]
    apply le_min (by norm_num)
    split_ifs
    · have := le_max_right ((countMatched INF_MODERN_KEYWORDS (infCaptions inf) : ℚ) * (2/10))
        ((8 : ℚ)/10)
      linarith
    · linarith

/-- The brand raw vector has positive squared magnitude. -/
theorem rawBrandVector_sumSq_pos (bd : BrandData) : 0 < sumSqQ (rawBrandVector bd) := by
  have hc := brandColorfulness_ge bd
  simp only [rawBrandVector, sumSqQ, List.map_cons, List.map_nil, List.sum_cons, List.sum_nil]
  nlinarith [sq_nonneg (brandLuxuryScore bd), sq_nonneg (brandProfessionalIndex bd),
    sq_nonneg (brandRolePrefs (brandProfessionalIndex bd)).1,
    sq_nonneg (brandRolePrefs (brandProfessionalIndex bd)).2,
    sq_nonneg (brandNaturalScore bd), sq_nonneg (brandModernScore bd),
    sq_nonneg (brandColorfulness bd), hc]

/-- The influencer raw vector has positive squared magnitude. -/
theorem rawInfluencerVector_sumSq_pos (inf : Influencer) (clsOpt : Option ClassResult) :
    0 < sumSqQ (rawInfluencerVector inf clsOpt) := by
  have hc := infColorfulness_ge inf
  simp only [rawInfluencerVector, sumSqQ, List.map_cons, List.map_nil, List.sum_cons,
    List.sum_nil]
  nlinarith [sq_nonneg (infLuxuryScore inf),
    sq_nonneg (infProfessionalScore inf ((clsOpt.map ClassResult.roleVector).getD (1/2, 1/2))),
    sq_nonneg ((clsOpt.map ClassResult.roleVector).getD (1/2, 1/2)).1,
    sq_nonneg ((clsOpt.map ClassResult.roleVector).getD (1/2, 1/2)).2,
    sq_nonneg (infNaturalScore inf), sq_nonneg (infModernScore inf),
    sq_nonneg (infColorfulness inf), hc]

/-- C10: the colorfulness, naturalness and modernity components of both
profile vectors are floored at 0.3 (for the influencer modernity under
the data-model range of the visual trend relevance), hence both raw
vectors are nonzero, the zero branch of the normalizer is unreachable at
these call sites, and both vectorizer outputs have squared L2 norm
exactly one. -/
theorem C10_profile_vectors_unit_norm (bd : BrandData) (inf : Influencer)
    (clsOpt : Option ClassResult) :
    ((3/10 : ℚ) ≤ brandColorfulness bd ∧ (3/10 : ℚ) ≤ brandNaturalScore bd ∧
      (3/10 : ℚ) ≤ brandModernScore bd) ∧
    0 < sumSqQ (rawBrandVector bd) ∧
    sumSqR (brandVectorizeR bd) = 1 ∧
    ((3/10 : ℚ) ≤ infColorfulness inf ∧ (3/10 : ℚ) ≤ infNaturalScore inf) ∧
    (0 ≤ trendScoreOf inf → (3/10 : ℚ) ≤ infModernScore inf) ∧
    0 < sumSqQ (rawInfluencerVector inf clsOpt) ∧
    sumSqR (influencerVectorizeR inf clsOpt) = 1 := by
  refine ⟨⟨brandColorfulness_ge bd, brandNaturalScore_ge bd, brandModernScore_ge bd⟩,
    rawBrandVector_sumSq_pos bd, ?_,
    ⟨infColorfulness_ge inf, infNaturalScore_ge inf⟩,
    infModernScore_ge inf,
    rawInfluencerVector_sumSq_pos inf clsOpt, ?_⟩
  · exact sumSqR_normalizeQR _ (rawBrandVector_sumSq_pos bd)
  · exact sumSqR_normalizeQR _ (rawInfluencerVector_sumSq_pos inf clsOpt)

/-- C10 witness at a creator with no visual data, whose defaulted trend
relevance 0.5 is nonnegative. -/
theorem C10_profile_vectors_unit_norm_witness :
    (0 : ℚ) ≤ trendScoreOf c8Influencer ∧ (3/10 : ℚ) ≤ infModernScore c8Influencer :=
  ⟨by norm_num [trendScoreOf, c8Influencer],
   (C10_profile_vectors_unit_norm c8Brand c8Influencer none).2.2.2.2.1
     (by norm_num [trendScoreOf, c8Influencer])⟩

end Amore
